import Mathlib

/-!
Verification development for the TangoApp Bluetooth-Mesh provisioner core.

The embedding covers, shallowly and executably:
* `src/core/layers/gprov.py` — generic-provisioning message grammar, segmentation,
  and the acknowledgement watcher;
* `src/core/provisioning.py` — the four-phase provisioning state machine;
* `src/client/mesh_layers/network_layer.py` — outbound network-PDU construction.

Bytes are modelled as `List Nat` (each element a byte value).  Python runtime slips
that the source actually contains (adding `bytes` to `str`, adding `int` to `bytes`,
calling a two-parameter function through `self` with three positional arguments) are
modelled by a small dynamic-value type whose ill-typed operations return
`Except.error PyErr.typeError`, mirroring the `TypeError` CPython would raise.

Modules of the repository that are not under `src/` (the byte buffers
`core.buffer` / `data_structs.buffer`, the crypto primitives `common.crypto` and the
PyCryptodome wrappers, the dongle/bearer drivers, `client.data_paths`,
`client.mesh_layers.mesh_context`, `client.network.network_data`, `model.database`)
are modelled from the specification: buffers are byte lists whose pull operations
fail when fewer bytes than requested remain (spec §4.2); crypto primitives and the
bearer are opaque parameters of the embedding (spec §4.1, §6).
-/

/-- Dynamic errors of the embedded Python fragments.  `typeError` stands for a
CPython `TypeError`, `bufferUnderflow` for the failure of a buffer pull with too few
bytes remaining (spec §4.2), and the remaining constructors for the exception
classes and `raise Exception(...)` sites of the source. -/
inductive PyErr where
  | typeError
  | bufferUnderflow
  | provisioningFail
  | provisioningTimeout
  | ackTimeout
  | paddingNotZero
  | bearerOpUnknown
  | gprovTypeUnknown
  deriving Repr, DecidableEq

/-- A dynamically typed Python value, as far as the embedded code needs one:
a bytes object, a str object, or an int. -/
inductive PyVal where
  | bytes (b : List Nat)
  | str (s : String)
  | int (n : Nat)
  deriving Repr, DecidableEq

/-- Python `+` on dynamic values: concatenation on two bytes or two str values,
addition on two ints; every mixed combination raises `TypeError`, exactly as in
CPython. -/
def pyAdd : PyVal → PyVal → Except PyErr PyVal
  | .bytes a, .bytes b => .ok (.bytes (a ++ b))
  | .str a, .str b => .ok (.str (a ++ b))
  | .int a, .int b => .ok (.int (a + b))
  | _, _ => .error .typeError

/-- The byte list of a `PyVal`, empty for non-bytes values. -/
def PyVal.toBytes : PyVal → List Nat
  | .bytes b => b
  | _ => []

/-- Modelled from the spec: `core.buffer` / `data_structs.buffer` are not under
`src/`.  Per spec §4.2 a buffer is a byte container; `pull_u8` removes and returns
the first byte and fails when no byte remains. -/
def pullU8 : List Nat → Except PyErr (Nat × List Nat)
  | [] => .error .bufferUnderflow
  | b :: rest => .ok (b, rest)

/-- Modelled from the spec: `pull_be16` removes the first two bytes and returns the
big-endian 16-bit value they form, failing when fewer than two bytes remain
(spec §4.2). -/
def pullBe16 : List Nat → Except PyErr (Nat × List Nat)
  | a :: b :: rest => .ok (a * 256 + b, rest)
  | _ => .error .bufferUnderflow

/-- Modelled from the spec: `pull_be(n)` removes and returns the first `n` bytes,
failing when fewer than `n` remain (spec §4.2). -/
def pullBe (n : Nat) (l : List Nat) : Except PyErr (List Nat × List Nat) :=
  if n ≤ l.length then .ok (l.take n, l.drop n) else .error .bufferUnderflow

/-- Modelled from the spec: `push_be16` appends a 16-bit value as two big-endian
bytes (spec §4.2). -/
def pushBe16 (n : Nat) : List Nat := [n / 256 % 256, n % 256]

/-- Modelled from the spec: `seek(0)` (the spec's `peek(0)`) reads the first byte
without removing it, failing on an empty buffer (spec §4.2). -/
def seek0 : List Nat → Except PyErr Nat
  | [] => .error .bufferUnderflow
  | b :: _ => .ok b

/-- Python `int.to_bytes(len, byteorder = big)` for values below `2 ^ (8 * len)`. -/
def natToBytesBE (len n : Nat) : List Nat :=
  (List.range len).map fun i => n >>> (8 * (len - 1 - i)) &&& 0xff

/-- Python `int.from_bytes(bytes, byteorder = big)`. -/
def bytesToNatBE (l : List Nat) : Nat :=
  l.foldl (fun acc b => acc * 256 + b) 0

/-! ## Generic provisioning layer (`src/core/layers/gprov.py`) -/

/-- `LINK_OPEN` bearer-control op code (gprov.py line 10). -/
def LINK_OPEN : Nat := 0x00
/-- `LINK_ACK` bearer-control op code (gprov.py line 11). -/
def LINK_ACK : Nat := 0x01
/-- `LINK_CLOSE` bearer-control op code (gprov.py line 12). -/
def LINK_CLOSE : Nat := 0x02

/-- `START` generic-provisioning message type (gprov.py line 14). -/
def START : Nat := 0x00
/-- `ACKNOWLEDGMENT` generic-provisioning message type (gprov.py line 15). -/
def ACKNOWLEDGMENT : Nat := 0x01
/-- `CONTINUATION` generic-provisioning message type (gprov.py line 16). -/
def CONTINUATION : Nat := 0x02
/-- `BEARER_CONTROL` generic-provisioning message type (gprov.py line 17). -/
def BEARER_CONTROL : Nat := 0x03

/-- `MAX_MTU_SIZE` (gprov.py line 19). -/
def MAX_MTU_SIZE : Nat := 24

/-- The `GProvStart` dataclass (gprov.py lines 22-27). -/
structure GProvStart where
  seg_n : Nat
  total_length : Nat
  fcs : Nat
  content : List Nat
  deriving Repr, DecidableEq

/-- The `GProvContinuation` dataclass (gprov.py lines 30-33). -/
structure GProvContinuation where
  seg_index : Nat
  content : List Nat
  deriving Repr, DecidableEq

/-- The `GProvAck` dataclass (gprov.py lines 36-38). -/
structure GProvAck where
  content : List Nat
  deriving Repr, DecidableEq

/-- The content field of a `GProvBearerControl`: the Python code stores the bytes
of the device UUID for `LINK_OPEN`, the empty bytes for `LINK_ACK`, and the pulled
`int` close reason for `LINK_CLOSE` (gprov.py lines 85-92). -/
inductive BearerContent where
  | bytes (b : List Nat)
  | int (n : Nat)
  deriving Repr, DecidableEq

/-- The `GProvBearerControl` dataclass (gprov.py lines 41-44). -/
structure GProvBearerControl where
  op_code : Nat
  content : BearerContent
  deriving Repr, DecidableEq

/-- The payload variants a decoded generic-provisioning message can carry
(the `msg_params: Any` field of `GProvData`). -/
inductive GProvParams where
  | start (s : GProvStart)
  | ack (a : GProvAck)
  | cont (c : GProvContinuation)
  | bc (b : GProvBearerControl)
  deriving Repr, DecidableEq

/-- The `GProvData` dataclass (gprov.py lines 47-50). -/
structure GProvData where
  type_ : Nat
  msg_params : GProvParams
  deriving Repr, DecidableEq

/-- `decode_msg_start` (gprov.py lines 53-61): pull the header byte, extract the
upper six bits as `seg_n`, pull the big-endian total length and the FCS byte, and
keep the remaining bytes as the content. -/
def decode_msg_start (l : List Nat) : Except PyErr GProvStart := do
  let (first_byte, l) ← pullU8 l
  let seg_n := (first_byte &&& 0b11111100) >>> 2
  let (total_length, l) ← pullBe16 l
  let (fcs, l) ← pullU8 l
  .ok ⟨seg_n, total_length, fcs, l⟩

/-- `decode_msg_ack` (gprov.py lines 64-70): the upper six bits of the header byte
must be zero, otherwise the decode raises. -/
def decode_msg_ack (l : List Nat) : Except PyErr GProvAck := do
  let (first_byte, _) ← pullU8 l
  let padding := (first_byte &&& 0b11111100) >>> 2
  if padding ≠ 0 then .error .paddingNotZero
  else .ok ⟨[]⟩

/-- `decode_msg_continuation` (gprov.py lines 73-78). -/
def decode_msg_continuation (l : List Nat) : Except PyErr GProvContinuation := do
  let (first_byte, l) ← pullU8 l
  let seg_index := (first_byte &&& 0b11111100) >>> 2
  .ok ⟨seg_index, l⟩

/-- `decode_msg_bearer_control` (gprov.py lines 81-94): extract the op code from
the upper six bits; `LINK_OPEN` keeps the remaining bytes as the UUID without any
length check, `LINK_CLOSE` pulls one reason byte, `LINK_ACK` carries nothing, and
any other op code raises. -/
def decode_msg_bearer_control (l : List Nat) : Except PyErr GProvBearerControl :=
  match l with
  | [] => .error .bufferUnderflow
  | first_byte :: l =>
    if (first_byte &&& 0b11111100) >>> 2 = LINK_OPEN then
      .ok ⟨(first_byte &&& 0b11111100) >>> 2, .bytes l⟩
    else if (first_byte &&& 0b11111100) >>> 2 = LINK_CLOSE then
      match l with
      | [] => .error .bufferUnderflow
      | close_reason :: _ => .ok ⟨(first_byte &&& 0b11111100) >>> 2, .int close_reason⟩
    else if (first_byte &&& 0b11111100) >>> 2 = LINK_ACK then
      .ok ⟨(first_byte &&& 0b11111100) >>> 2, .bytes []⟩
    else
      .error .bearerOpUnknown

/-- `decode_gprov_message` (gprov.py lines 97-111): dispatch on the low two bits of
the first byte. -/
def decode_gprov_message (l : List Nat) : Except PyErr GProvData := do
  let b0 ← seek0 l
  let type_ := b0 &&& 0b00000011
  if type_ = START then do
    let s ← decode_msg_start l
    .ok ⟨type_, .start s⟩
  else if type_ = ACKNOWLEDGMENT then do
    let a ← decode_msg_ack l
    .ok ⟨type_, .ack a⟩
  else if type_ = CONTINUATION then do
    let c ← decode_msg_continuation l
    .ok ⟨type_, .cont c⟩
  else if type_ = BEARER_CONTROL then do
    let b ← decode_msg_bearer_control l
    .ok ⟨type_, .bc b⟩
  else
    .error .gprovTypeUnknown

/-- `GProvLayer.__fcs` (gprov.py lines 135-137): the source is a TODO stub that
returns 0 for every buffer. -/
def gprov_fcs (_ : List Nat) : Nat := 0

/-- One iteration bound of the continuation-split loop: the loop of
`__send_start_tr` removes `MAX_MTU_SIZE - 1` bytes per iteration, so the initial
buffer length always bounds the number of iterations. -/
def splitSegmentsGo : Nat → List Nat → List (List Nat)
  | 0, l => [l]
  | fuel + 1, l =>
    if MAX_MTU_SIZE - 1 < l.length then
      l.take (MAX_MTU_SIZE - 1) :: splitSegmentsGo fuel (l.drop (MAX_MTU_SIZE - 1))
    else
      [l]

/-- The continuation-segment split of `GProvLayer.__send_start_tr`
(gprov.py lines 166-169): while more than `MAX_MTU_SIZE - 1` bytes remain, pull
`MAX_MTU_SIZE - 1` of them; then `pull_all_be` is appended unconditionally, so the
final (possibly empty) remainder always becomes a segment.  The loop is fuelled by
the buffer length, which strictly bounds the number of 23-byte pulls. -/
def splitSegments (l : List Nat) : List (List Nat) :=
  splitSegmentsGo l.length l

/-- `GProvLayer.__send_start_tr` (gprov.py lines 158-182): measure the total
length, compute the (stubbed) FCS, pull the `MAX_MTU_SIZE - 4` start bytes
(failing when fewer remain, spec §4.2), split the rest into continuation segments,
and build the START frame whose header carries `seg_n = ` number of continuation
segments.  Returns the START frame and the continuation segments. -/
def send_start_tr (buffer : List Nat) :
    Except PyErr (List Nat × List (List Nat)) := do
  let total_length := buffer.length
  let fcs := gprov_fcs buffer
  let (start_content, rest) ← pullBe (MAX_MTU_SIZE - 4) buffer
  let continuation_segments := splitSegments rest
  let seg_n := continuation_segments.length
  let last_seg_number := (seg_n &&& 0b00111111) <<< 2
  let msg := [last_seg_number] ++ pushBe16 total_length ++ [fcs] ++ start_content
  .ok (msg, continuation_segments)

/-- The frame list built by `GProvLayer.__send_continuation_tr`
(gprov.py lines 184-194): the segment at position `x` is sent with header byte
`((x + 1) &&& 0x3f) <<< 2 ||| 0b10`. -/
def contFrames (x : Nat) : List (List Nat) → List (List Nat)
  | [] => []
  | s :: rest => ((((x + 1) &&& 0b00111111) <<< 2 ||| 0b00000010) :: s) :: contFrames (x + 1) rest

/-- The complete ordered frame list emitted on the bearer by `GProvLayer.send`
(gprov.py lines 196-207): the START frame followed by the continuation frames. -/
def gprovSendFrames (content : List Nat) : Except PyErr (List (List Nat)) := do
  let (start, segments) ← send_start_tr content
  .ok (start :: contFrames 0 segments)

/-! ### The acknowledgement watcher (`GProvLayer.__check_tr_ack`) -/

/-- The Python local variable `type_` of `__check_tr_ack` (gprov.py lines 140-156):
it is initialised to the `int` constant `START` and later reassigned to the
`GProvData` object returned by `decode_gprov_message`, so its value is either an
int or a dataclass instance. -/
inductive TypeVar where
  | int (n : Nat)
  | gdata (d : GProvData)
  deriving Repr, DecidableEq

/-- Python `type_ == ACKNOWLEDGMENT` in `__check_tr_ack`: true only when `type_`
holds the int 1; comparing a `GProvData` dataclass instance with an int is `False`
in Python. -/
def typeVarIsAck : TypeVar → Bool
  | .int n => n == ACKNOWLEDGMENT
  | .gdata _ => false

/-- The loop of `GProvLayer.__check_tr_ack` (gprov.py lines 146-156), fuelled.
`stream` is the sequence of frames the bearer delivers to `recv(1, 0.5)` and
`clock` the sequence of wall-clock readings `time()` returns.  The loop runs while
`type_ != ACKNOWLEDGMENT and elapsed_time < 30`; each iteration receives a frame,
decodes it into `type_`, and updates
`elapsed_time += start_time - time()` exactly as the source does.  An exhausted
bearer or a decode exception kills the watcher thread, leaving the receive event
unset.  The result is whether `__ack_recv_event` gets set, which the source does
only when `type_ == ACKNOWLEDGMENT and elapsed_time < 30` after the loop. -/
def checkTrAckGo (stream : List (List Nat)) (clock : Nat → Int) :
    Nat → TypeVar → Int → Int → Nat → Nat → Bool
  | 0, _, _, _, _, _ => false
  | fuel + 1, type_, start_time, elapsed_time, si, ci =>
    if typeVarIsAck type_ = false ∧ elapsed_time < 30 then
      match stream.get? si with
      | none => false
      | some content =>
        match decode_gprov_message content with
        | .error _ => false
        | .ok d =>
          checkTrAckGo stream clock fuel (.gdata d) start_time
            (elapsed_time + (start_time - clock ci)) (si + 1) (ci + 1)
    else
      typeVarIsAck type_ && decide (elapsed_time < 30)

/-- `GProvLayer.__check_tr_ack` (gprov.py lines 139-156): `start_time = time()`,
`elapsed_time = time()` (an absolute clock reading, not 0), then the polling loop.
Returns whether the acknowledgement-received event gets set. -/
def check_tr_ack (fuel : Nat) (stream : List (List Nat)) (clock : Nat → Int) : Bool :=
  checkTrAckGo stream clock fuel (.int START) (clock 0) (clock 1) 0 2

/-- `GProvLayer.send` (gprov.py lines 196-214): push the content, emit the START
and continuation frames, run the acknowledgement watcher, wait on the timeout
event, and raise the no-ACK exception when the receive event is not set. -/
def gprov_send (fuel : Nat) (stream : List (List Nat)) (clock : Nat → Int)
    (content : List Nat) : Except PyErr (List (List Nat)) := do
  let frames ← gprovSendFrames content
  if check_tr_ack fuel stream clock then .ok frames
  else .error .ackTimeout

/-! ## Network layer (`src/client/mesh_layers/network_layer.py`) -/

/-- Modelled from the spec: `common.crypto` is not under `src/`.  Per spec §4.1 the
primitives are pure functions; the embedding takes them as parameters.  `k2`
returns the integer "materials" value that `_gen_security_material` bit-slices,
`aes_ccm(key, nonce, text, adata)` returns ciphertext followed by the MIC, and `e`
is the raw AES-128 block encryption used for the PECB. -/
structure CryptoOps where
  k2 : List Nat → List Nat → Nat
  aes_ccm : List Nat → List Nat → List Nat → List Nat → List Nat
  e : List Nat → List Nat → List Nat

/-- Modelled from the spec: `client.network.network_data.NetworkData` is not under
`src/`; spec §3 gives its fields (name, 16-byte net key, IV index, 24-bit sequence
counter). -/
structure NetworkData where
  name : String
  key : List Nat
  iv_index : List Nat
  seq : Int

/-- Modelled from the spec: `client.mesh_layers.mesh_context.HardContext` is not
under `src/`; spec §3 gives one control-message flag (the source spells it both
`is_ctrl_msg` and `is_crtl_msg`; the embedding identifies the two spellings as the
single flag the spec describes), a 7-bit TTL and a 24-bit sequence value, carried
as the three bytes the send path concatenates into the nonce. -/
structure HardContext where
  is_ctrl_msg : Bool
  ttl : Nat
  seq : List Nat

/-- Modelled from the spec: `client.mesh_layers.mesh_context.SoftContext` is not
under `src/`; spec §3 gives a 2-byte source address, a 2-byte destination address
and a network name. -/
structure SoftContext where
  src_addr : List Nat
  dst_addr : List Nat
  network_name : String

/-- `NetworkLayer._gen_security_material` (network_layer.py lines 25-32): call
`crypto.k2(net_key, 0x00)` and bit-slice the integer result — bits 32..38 become
the nid, bits 16..79 the encryption key and bits 0..63 the privacy key, each key
then serialised as 16 big-endian bytes. -/
def gen_security_material (ops : CryptoOps) (net_data : NetworkData) :
    Nat × List Nat × List Nat :=
  let materials := ops.k2 net_data.key [0x00]
  let nid := (materials &&& (0x7f <<< 32)) >>> 32
  let encryption_key := (materials &&& (0xFFFFFFFFFFFFFFFF <<< 16)) >>> 16
  let privacy_key := materials &&& 0xFFFFFFFFFFFFFFFF
  (nid, natToBytesBE 16 encryption_key, natToBytesBE 16 privacy_key)

/-- `NetworkLayer._encrypt` (network_layer.py lines 34-48): run
`aes_ccm(encryption_key, net_nonce, dst_addr ++ transport_pdu, adata = empty)` and
split the result into the 2-byte encrypted destination, the encrypted transport
PDU, and the MIC — 8 trailing bytes when the context marks a control message, else
4.  The slices follow Python semantics (`r[2:-8]`, `r[-8:]`). -/
def network_encrypt (ops : CryptoOps) (hard : HardContext) (soft : SoftContext)
    (transport_pdu : List Nat) (encryption_key net_nonce : List Nat) :
    List Nat × List Nat × List Nat :=
  let r := ops.aes_ccm encryption_key net_nonce (soft.dst_addr ++ transport_pdu) []
  if hard.is_ctrl_msg then
    (r.take 2, (r.take (r.length - 8)).drop 2, r.drop (r.length - 8))
  else
    (r.take 2, (r.take (r.length - 4)).drop 2, r.drop (r.length - 4))

/-- `NetworkLayer._obsfucate` (network_layer.py lines 56-65).  The source computes
`privacy_random = (enc_dst + enc_transport_pdu + net_dir)[0:7]` — `net_dir` is the
path-fragment *string* imported from `client.data_paths` (it is concatenated with
`.yml` path strings at line 68), not the `net_mic` parameter, so the concatenation
adds bytes to a str and raises `TypeError`.  Were that value ever produced, the
following `self.__xor(...)` call would itself raise `TypeError`: `__xor` is
defined with the two parameters `a, b` and no `self` (line 50), so the bound call
at line 63 passes three positional arguments. -/
def network_obsfucate (ops : CryptoOps) (net_dir : String) (ctl ttl : Nat)
    (seq src enc_dst enc_transport_pdu _net_mic privacy_key : List Nat)
    (net_data : NetworkData) : Except PyErr (List Nat) := do
  let pr1 ← pyAdd (.bytes enc_dst) (.bytes enc_transport_pdu)
  let pr2 ← pyAdd pr1 (.str net_dir)
  let privacy_random := pr2.toBytes.take 7
  let _pecb := ops.e privacy_key
    ([0x00, 0x00, 0x00, 0x00, 0x00] ++ net_data.iv_index ++ privacy_random)
  let _header := [ctl ||| ttl] ++ seq ++ src
  .error .typeError

/-- `NetworkLayer.send_pdu` (network_layer.py lines 67-95): derive the security
material, compose the header fields and the 13-byte network nonce, encrypt, then
obfuscate the header and assemble the PDU.  The `NetworkData` record stands for the
record `NetworkData.load` would return for the context's network name.  Note that
the function reads `hard_ctx.seq` as is: no sequence number is allocated from the
record and nothing is persisted. -/
def send_pdu (ops : CryptoOps) (net_dir : String) (net_data : NetworkData)
    (hard : HardContext) (soft : SoftContext) (transport_pdu : List Nat) :
    Except PyErr (List Nat) := do
  let (nid, encryption_key, privacy_key) := gen_security_material ops net_data
  let ivi := (bytesToNatBE net_data.iv_index &&& 0x01) <<< 7
  let ctl := if hard.is_ctrl_msg then 0x80 else 0x00
  let ttl := hard.ttl &&& 0x7f
  let seq := hard.seq
  let src := soft.src_addr
  let net_nonce := [0x00] ++ [ctl ||| ttl] ++ seq ++ src ++ [0x00, 0x00]
    ++ net_data.iv_index
  let (enc_dst, enc_transport_pdu, net_mic) :=
    network_encrypt ops hard soft transport_pdu encryption_key net_nonce
  let obsfucated ← network_obsfucate ops net_dir ctl ttl seq src enc_dst
    enc_transport_pdu net_mic privacy_key net_data
  .ok ([ivi ||| nid] ++ obsfucated ++ enc_dst ++ enc_transport_pdu ++ net_mic)

/-- Two successive `send_pdu` calls on the same network record (the scenario of
the sequence-monotonicity law).  `NetworkLayer.send_pdu` never reads or writes
`NetworkData.seq` and calls no save operation, so the record after both calls is
the record that was loaded; the triple returned is (first result, second result,
record after both sends). -/
def send_pdu_twice (ops : CryptoOps) (net_dir : String) (net_data : NetworkData)
    (hard : HardContext) (soft : SoftContext) (t1 t2 : List Nat) :
    Except PyErr (List Nat) × Except PyErr (List Nat) × NetworkData :=
  (send_pdu ops net_dir net_data hard soft t1,
   send_pdu ops net_dir net_data hard soft t2,
   net_data)

/-! ## Provisioning layer (`src/core/provisioning.py`) -/

/-- `PROVISIONING_INVITE` opcode (provisioning.py line 11). -/
def PROVISIONING_INVITE : Nat := 0x00
/-- `PROVISIONING_CAPABILITIES` opcode (provisioning.py line 12). -/
def PROVISIONING_CAPABILITIES : Nat := 0x01
/-- `PROVISIONING_START` opcode (provisioning.py line 13). -/
def PROVISIONING_START : Nat := 0x02
/-- `PROVISIONING_PUBLIC_KEY` opcode (provisioning.py line 14). -/
def PROVISIONING_PUBLIC_KEY : Nat := 0x03
/-- `PROVISIONING_INPUT_COMPLETE` opcode (provisioning.py line 15). -/
def PROVISIONING_INPUT_COMPLETE : Nat := 0x04
/-- `PROVISIONING_CONFIRMATION` opcode (provisioning.py line 16). -/
def PROVISIONING_CONFIRMATION : Nat := 0x05
/-- `PROVISIONING_RANDOM` opcode (provisioning.py line 17). -/
def PROVISIONING_RANDOM : Nat := 0x06
/-- `PROVISIONING_DATA` opcode (provisioning.py line 18). -/
def PROVISIONING_DATA : Nat := 0x07
/-- `PROVISIONING_COMPLETE` opcode (provisioning.py line 19). -/
def PROVISIONING_COMPLETE : Nat := 0x08
/-- `PROVISIONING_FAILED` opcode (provisioning.py line 20). -/
def PROVISIONING_FAILED : Nat := 0x09

/-- `CLOSE_SUCCESS` link-close reason byte (provisioning.py line 22). -/
def CLOSE_SUCCESS : List Nat := [0x00]
/-- `CLOSE_TIMEOUT` link-close reason byte (provisioning.py line 23). -/
def CLOSE_TIMEOUT : List Nat := [0x01]
/-- `CLOSE_FAIL` link-close reason byte (provisioning.py line 24). -/
def CLOSE_FAIL : List Nat := [0x02]

/-- `ProvisioningLayer.default_attention_duration` (provisioning.py line 53). -/
def default_attention_duration : Nat := 5

/-- `ProvisioningLayer.__auth_value` as set at provisioning.py line 125: sixteen
zero bytes. -/
def auth_value16 : List Nat := List.replicate 16 0

/-- The bytes of the ASCII string `prck` (provisioning.py line 161). -/
def prck : List Nat := [0x70, 0x72, 0x63, 0x6b]
/-- The bytes of the ASCII string `prsk` (provisioning.py line 199). -/
def prsk : List Nat := [0x70, 0x72, 0x73, 0x6b]
/-- The bytes of the ASCII string `prsn` (provisioning.py line 200). -/
def prsn : List Nat := [0x70, 0x72, 0x73, 0x6e]

/-- Modelled from the spec: the collaborators of `ProvisioningLayer` that are not
under `src/` — the PyCryptodome `CMAC`/`CCM` wrappers (`__aes_cmac`, the cipher
inside `__aes_ccm`), the `ecdsa` key pair of `__gen_keys`, the point
multiplication of `__calc_ecdh_secret`, `get_random_bytes`, the
`core.device.Capabilities` parser, and the `model.database` network record.  Spec
§4.1 treats the crypto as pure primitives, §4.6 fixes the key material per
session, and §3 gives the network-record fields, so the embedding carries them as
per-run parameters. -/
structure ProvParams where
  cmac : List Nat → List Nat → List Nat
  ccm_enc : List Nat → List Nat → List Nat → List Nat × List Nat
  caps_ok : List Nat → Bool
  pub_x : List Nat
  pub_y : List Nat
  ecdh_x : List Nat
  rand_prov : List Nat
  net_key : List Nat
  net_key_index : Nat
  iv_index : List Nat
  unicast : List Nat

/-- The per-run transport state of the provisioning layer: the device's response
transactions not yet consumed by `get_transaction`, and the transactions handed to
`send_transaction` so far, in order. -/
structure ProvSt where
  frames : List (List Nat)
  sent : List (List Nat)
  deriving Repr, DecidableEq

/-- The provisioning layer's effect monad: state threading of `ProvSt` with Python
exceptions, keeping the transport state (in particular the sent transactions) even
when an exception is raised. -/
def ProvM (α : Type) := ProvSt → Except PyErr α × ProvSt

instance : Monad ProvM where
  pure a := fun st => (.ok a, st)
  bind m f := fun st =>
    match m st with
    | (.ok a, st) => f a st
    | (.error e, st) => (.error e, st)

/-- Raise a Python exception inside `ProvM`. -/
def praise {α : Type} (e : PyErr) : ProvM α := fun st => (.error e, st)

/-- Lift a fallible buffer operation into `ProvM`. -/
def pliftE {α : Type} (r : Except PyErr α) : ProvM α := fun st => (r, st)

/-- `gprov_layer.send_transaction(msg)` as used by the provisioning layer: the
transaction content is recorded on the transport, in order. -/
def sendTr (msg : List Nat) : ProvM Unit :=
  fun st => (.ok (), { st with sent := st.sent ++ [msg] })

/-- Modelled from the spec: `gprov_layer.get_transaction()` blocks for the next
reassembled device transaction; an exhausted device is the transport-level timeout
of spec §4.6, which surfaces as `ProvisioningTimeout`. -/
def getTr : ProvM (List Nat) := fun st =>
  match st.frames with
  | [] => (.error .provisioningTimeout, st)
  | f :: rest => (.ok f, { st with frames := rest })

/-- `ProvisioningLayer.__recv` (provisioning.py lines 216-228): pull the next
transaction, pull its opcode; an opcode equal to `PROVISIONING_FAILED` raises
`ProvisioningFail` before any comparison with the expected opcode; otherwise a
given expected opcode is compared and a mismatch raises `ProvisioningFail`.
Returns the opcode and the content after the opcode byte. -/
def prov_recv (opcode_verification : Option Nat) : ProvM (Nat × List Nat) := do
  let content ← getTr
  let (opcode, rest) ← pliftE (pullU8 content)
  if opcode = PROVISIONING_FAILED then praise .provisioningFail
  else
    match opcode_verification with
    | some v => if opcode = v then pure (opcode, rest) else praise .provisioningFail
    | none => pure (opcode, rest)

/-- `ProvisioningLayer.__s1` (provisioning.py lines 250-252). -/
def prov_s1 (P : ProvParams) (input : List Nat) : List Nat :=
  P.cmac (List.replicate 16 0) input

/-- `ProvisioningLayer.__k1` (provisioning.py lines 254-256). -/
def prov_k1 (P : ProvParams) (shared_secret salt msg : List Nat) : List Nat :=
  P.cmac (P.cmac salt shared_secret) msg

/-- `ProvisioningLayer.__invitation_prov_phase` (provisioning.py lines 96-113):
send `0x00 || attention_duration`, receive the capabilities transaction, record
its body, require opcode `PROVISIONING_CAPABILITIES`, and parse the capabilities
(a parse failure is `ProvisioningFail` per spec §4.6).  Returns the recorded
`__provisioning_invite` — the *integer* attention duration, exactly as line 103
stores it — and the capabilities bytes. -/
def invitation_prov_phase (P : ProvParams) : ProvM (PyVal × List Nat) := do
  sendTr [PROVISIONING_INVITE, default_attention_duration]
  let content ← getTr
  let (opcode, rest) ← pliftE (pullU8 content)
  let provisioning_capabilities := rest
  if opcode ≠ PROVISIONING_CAPABILITIES then praise .provisioningFail
  else if P.caps_ok rest then
    pure (.int default_attention_duration, provisioning_capabilities)
  else praise .provisioningFail

/-- `ProvisioningLayer.__exchanging_pub_keys_prov_phase` (provisioning.py lines
115-151): send the START transaction `0x02 || 0x00 || 0x00 || 0x00 || 0x00 ||
0x00` (all four authentication parameters are the 0x00 attributes), record
`__provisioning_start` as its bytes after the opcode, send
`0x03 || pub_x || pub_y`, receive the device public key (opcode must be 0x03,
then two 32-byte pulls), and compute the ECDH secret.  Returns the recorded
start bytes and the device public key. -/
def exchanging_pub_keys_prov_phase (P : ProvParams) :
    ProvM (List Nat × (List Nat × List Nat)) := do
  let start_msg := [PROVISIONING_START, 0x00, 0x00, 0x00, 0x00, 0x00]
  let provisioning_start := start_msg.drop 1
  sendTr start_msg
  sendTr ([PROVISIONING_PUBLIC_KEY] ++ P.pub_x ++ P.pub_y)
  let content ← getTr
  let (opcode, rest) ← pliftE (pullU8 content)
  if opcode ≠ PROVISIONING_PUBLIC_KEY then praise .provisioningFail
  else do
    let (dx, rest) ← pliftE (pullBe 32 rest)
    let (dy, _) ← pliftE (pullBe 32 rest)
    pure (provisioning_start, (dx, dy))

/-- `ProvisioningLayer.__authentication_prov_phase` (provisioning.py lines
153-187).  The first statement concatenates the confirmation inputs:
`self.__provisioning_invite + self.__provisioning_capabilities + ...` —
`__provisioning_invite` holds the *int* 5 (line 103) and
`__provisioning_capabilities` a bytes object, so the very first Python `+` raises
`TypeError`.  The remainder of the phase is embedded faithfully: were the
concatenation to succeed, the phase would derive the confirmation salt and key,
send the confirmation value *without any opcode byte* (line 169 pushes only the
CMAC), receive the device confirmation (opcode 0x05), send the provisioner random
*without any opcode byte* (line 177), receive the device random (opcode 0x06), and
raise `ProvisioningFail` on a confirmation mismatch.  Returns the confirmation
salt and the device random. -/
def authentication_prov_phase (P : ProvParams) (provisioning_invite : PyVal)
    (provisioning_capabilities provisioning_start : List Nat)
    (device_pub : List Nat × List Nat) : ProvM (List Nat × List Nat) := do
  let ci1 ← pliftE (pyAdd provisioning_invite (.bytes provisioning_capabilities))
  let ci2 ← pliftE (pyAdd ci1 (.bytes provisioning_start))
  let ci3 ← pliftE (pyAdd ci2 (.bytes P.pub_x))
  let ci4 ← pliftE (pyAdd ci3 (.bytes P.pub_y))
  let ci5 ← pliftE (pyAdd ci4 (.bytes device_pub.1))
  let ci6 ← pliftE (pyAdd ci5 (.bytes device_pub.2))
  let confirmation_salt := prov_s1 P ci6.toBytes
  let confirmation_key := prov_k1 P P.ecdh_x confirmation_salt prck
  let confirmation_provisioner := P.cmac confirmation_key (P.rand_prov ++ auth_value16)
  sendTr confirmation_provisioner
  let (_, recv_confirmation_device) ← prov_recv (some PROVISIONING_CONFIRMATION)
  sendTr P.rand_prov
  let (_, random_device) ← prov_recv (some PROVISIONING_RANDOM)
  let calc_confirmation_device := P.cmac confirmation_key (random_device ++ auth_value16)
  if recv_confirmation_device ≠ calc_confirmation_device then praise .provisioningFail
  else pure (confirmation_salt, random_device)

/-- `ProvisioningLayer.__send_data_prov_phase` (provisioning.py lines 189-214):
derive the provisioning salt, session key and session nonce, build
`provisioning_data = net_key || key_index || 0x00 || iv_index || unicast`, send
the encrypted data followed by the MIC *without any opcode byte* (lines 209-212
push only the ciphertext and the MIC), and finally receive a transaction whose
opcode is verified against `PROVISIONING_CONFIRMATION` (0x05) — line 214 — not
against `PROVISIONING_COMPLETE`. -/
def send_data_prov_phase (P : ProvParams)
    (confirmation_salt random_device : List Nat) : ProvM Unit := do
  let key_index := natToBytesBE 2 P.net_key_index
  let flags := [0x00]
  let provisioning_salt :=
    prov_s1 P (confirmation_salt ++ P.rand_prov ++ random_device)
  let session_key := prov_k1 P P.ecdh_x provisioning_salt prsk
  let session_nonce := prov_k1 P P.ecdh_x provisioning_salt prsn
  let provisioning_data := P.net_key ++ key_index ++ flags ++ P.iv_index ++ P.unicast
  let (encrypted_provisioning_data, provisioning_data_mic) :=
    P.ccm_enc session_key session_nonce provisioning_data
  sendTr (encrypted_provisioning_data ++ provisioning_data_mic)
  let _ ← prov_recv (some PROVISIONING_CONFIRMATION)
  pure ()

/-- The phase sequence inside the `try` block of
`ProvisioningLayer.provisioning_device` (provisioning.py lines 80-83). -/
def run_phases (P : ProvParams) : ProvM Unit := do
  let (invite, caps) ← invitation_prov_phase P
  let (start, dpub) ← exchanging_pub_keys_prov_phase P
  let (confirmation_salt, random_device) ←
    authentication_prov_phase P invite caps start dpub
  send_data_prov_phase P confirmation_salt random_device

/-- The observable outcome of one `provisioning_device` call: the transactions
sent, the `LINK_CLOSE` reasons emitted, the device transactions left unconsumed,
and the call's result — `.ok ()` for a normal return (including the swallowed
`ProvisioningFail`/`ProvisioningTimeout` handlers) and `.error e` for an exception
that escapes to the caller. -/
structure ProvOutcome where
  sent : List (List Nat)
  closes : List (List Nat)
  frames_left : List (List Nat)
  result : Except PyErr Unit
  deriving Repr

/-- `ProvisioningLayer.provisioning_device` (provisioning.py lines 76-89): open
the link, run the four phases, and close the link with `SUCCESS` on completion,
with `FAIL` on `ProvisioningFail`, with `TIMEOUT` on `ProvisioningTimeout`.  Both
handlers *return normally* — the exception is not re-raised — while every other
exception escapes with no `LINK_CLOSE` at all. -/
def provisioning_device (P : ProvParams) (device_frames : List (List Nat)) :
    ProvOutcome :=
  match run_phases P ⟨device_frames, []⟩ with
  | (.ok _, st) => ⟨st.sent, [CLOSE_SUCCESS], st.frames, .ok ()⟩
  | (.error .provisioningFail, st) => ⟨st.sent, [CLOSE_FAIL], st.frames, .ok ()⟩
  | (.error .provisioningTimeout, st) => ⟨st.sent, [CLOSE_TIMEOUT], st.frames, .ok ()⟩
  | (.error e, st) => ⟨st.sent, [], st.frames, .error e⟩

/-! ## Concrete scenario instances

Concrete instantiations of the opaque collaborators, used to evaluate the embedded
code on closed inputs.  The crypto functions are simple total stand-ins (a constant
CMAC, an identity-cipher CCM): the control-flow facts established below do not
depend on the cipher algebra, only on the byte plumbing of the source. -/

/-- A concrete provisioning parameter set: constant 16-zero-byte CMAC, CCM that
returns its plaintext with an 8-zero-byte MIC, an always-successful capabilities
parse, and fixed key material and network record fields (spec scenario S5's shape). -/
def happyParams : ProvParams where
  cmac := fun _ _ => List.replicate 16 0
  ccm_enc := fun _ _ data => (data, List.replicate 8 0)
  caps_ok := fun _ => true
  pub_x := List.replicate 32 1
  pub_y := List.replicate 32 2
  ecdh_x := List.replicate 32 3
  rand_prov := List.replicate 16 7
  net_key := List.replicate 16 9
  net_key_index := 0
  iv_index := [0x12, 0x34, 0x56, 0x78]
  unicast := [0x00, 0x02]

/-- Device transactions of a protocol-conformant run against `happyParams`:
capabilities, public key, a confirmation equal to the recomputed
`cmac(confirmation_key, random_device || auth_value)` (the constant CMAC makes the
sixteen zero bytes match), the device random, and finally
`PROVISIONING_COMPLETE`. -/
def happyFrames : List (List Nat) :=
  [PROVISIONING_CAPABILITIES :: List.replicate 11 0,
   PROVISIONING_PUBLIC_KEY :: (List.replicate 32 4 ++ List.replicate 32 5),
   PROVISIONING_CONFIRMATION :: List.replicate 16 0,
   PROVISIONING_RANDOM :: List.replicate 16 6,
   [PROVISIONING_COMPLETE]]

/-- Device transactions of a run whose confirmation value (sixteen 0x01 bytes)
differs from every value the constant CMAC of `happyParams` can produce (sixteen
zero bytes) — the confirmation-mismatch scenario (spec scenario S6's shape). -/
def mismatchFrames : List (List Nat) :=
  [PROVISIONING_CAPABILITIES :: List.replicate 11 0,
   PROVISIONING_PUBLIC_KEY :: (List.replicate 32 4 ++ List.replicate 32 5),
   PROVISIONING_CONFIRMATION :: List.replicate 16 1,
   PROVISIONING_RANDOM :: List.replicate 16 6,
   [PROVISIONING_COMPLETE]]

/-! ## Theorems -/

/-- Invariant of the acknowledgement-watcher loop: whatever the bearer delivers
and whatever the clock reads, the `type_` variable is never equal (in Python
semantics) to the int `ACKNOWLEDGMENT` — it starts as the int `START` and is only
ever reassigned to a `GProvData` dataclass instance, which Python compares to an
int as `False` — so the receive event is never set. -/
theorem checkTrAckGo_never_set (stream : List (List Nat)) (clock : Nat → Int) :
    ∀ (fuel : Nat) (type_ : TypeVar) (start_time elapsed_time : Int) (si ci : Nat),
      typeVarIsAck type_ = false →
      checkTrAckGo stream clock fuel type_ start_time elapsed_time si ci = false := by
  intro fuel
  induction fuel with
  | zero => intro type_ st el si ci _; rfl
  | succ n ih =>
    intro type_ st el si ci h
    rw [checkTrAckGo]
    split
    · cases hg : stream.get? si with
      | none => simp [hg]
      | some content =>
        cases hd : decode_gprov_message content with
        | error e => simp [hg, hd]
        | ok d => simpa [hg, hd] using ih (.gdata d) st (el + (st - clock ci)) (si + 1) (ci + 1) rfl
    · simp [h]

/-- `__check_tr_ack` can never set the acknowledgement-received event, for any
fuel, bearer stream and clock. -/
theorem check_tr_ack_false (fuel : Nat) (stream : List (List Nat)) (clock : Nat → Int) :
    check_tr_ack fuel stream clock = false :=
  checkTrAckGo_never_set stream clock fuel (.int START) (clock 0) (clock 1) 0 2 rfl

/-- C1.  The network round-trip law fails on the code: `NetworkLayer.send_pdu`
raises `TypeError` for every in-range input — `_obsfucate` concatenates the
encrypted bytes with the path string `net_dir` instead of the `net_mic` bytes —
so no network PDU is ever built, and encoding-then-decoding can never return the
original `src`, `dst`, `seq`, `is_ctrl` and transport PDU. -/
theorem send_pdu_always_type_error (ops : CryptoOps) (net_dir : String)
    (net_data : NetworkData) (hard : HardContext) (soft : SoftContext)
    (transport_pdu : List Nat) :
    send_pdu ops net_dir net_data hard soft transport_pdu = .error .typeError := by
  obtain ⟨ic, ttl, seq⟩ := hard
  cases ic <;> rfl

/-- C6.  Sequence allocation does not happen: `send_pdu` reads `hard_ctx.seq`,
never touches `NetworkData.seq` and persists nothing, so after two successive
sends on the same network the record's sequence counter is exactly the loaded
one — and neither send even produces a PDU (each raises `TypeError`), so no two
successive successful sends with sequence numbers differing by 1 exist. -/
theorem send_pdu_twice_no_seq_allocation (ops : CryptoOps) (net_dir : String)
    (net_data : NetworkData) (hard : HardContext) (soft : SoftContext)
    (t1 t2 : List Nat) :
    (send_pdu_twice ops net_dir net_data hard soft t1 t2).1 = .error .typeError ∧
    (send_pdu_twice ops net_dir net_data hard soft t1 t2).2.1 = .error .typeError ∧
    (send_pdu_twice ops net_dir net_data hard soft t1 t2).2.2.seq = net_data.seq := by
  obtain ⟨ic, ttl, seq⟩ := hard
  cases ic <;> exact ⟨rfl, rfl, rfl⟩

/-- C8.  The privacy random is never the first 7 bytes of
`enc_dst || enc_transport_pdu || net_mic`: `_obsfucate` slices
`enc_dst + enc_transport_pdu + net_dir` — the path string imported from
`client.data_paths` — so it raises `TypeError` for every input instead of
producing a privacy random at all (and its `net_mic` parameter is unused). -/
theorem network_obsfucate_always_type_error (ops : CryptoOps) (net_dir : String)
    (ctl ttl : Nat) (seq src enc_dst enc_transport_pdu net_mic privacy_key : List Nat)
    (net_data : NetworkData) :
    network_obsfucate ops net_dir ctl ttl seq src enc_dst enc_transport_pdu net_mic
      privacy_key net_data = .error .typeError := rfl

/-- C3.  A 20-byte payload does not produce a single START frame with
`seg_n = 0`: `__send_start_tr` unconditionally appends the (here empty) remainder
as a continuation segment, so `GProvLayer.send` emits two frames — a START whose
header byte is 4 (`seg_n = 1`), total length 20, stub FCS 0, and a CONTINUATION
frame `[6]` (`seg_index = 1`) with empty content. -/
theorem gprov_twenty_byte_payload_two_frames :
    gprovSendFrames (List.replicate 20 0xCC) =
      .ok [[4, 0, 20, 0] ++ List.replicate 20 0xCC, [6]] := rfl

/-- C4.  `GProvLayer.send` raises the no-ACK error regardless of whether and when
an ACKNOWLEDGMENT frame is delivered: the watcher compares the decoded
`GProvData` object against the int constant and starts its elapsed-time counter
at the absolute clock reading, so the receive event is never set and every send
ends in `AckTimeout` — for every fuel, bearer stream and clock, whenever the
payload is long enough for the start segment to be pulled. -/
theorem gprov_send_ack_ignored (fuel : Nat) (stream : List (List Nat))
    (clock : Nat → Int) (content : List Nat)
    (h : MAX_MTU_SIZE - 4 ≤ content.length) :
    gprov_send fuel stream clock content = .error .ackTimeout := by
  unfold gprov_send gprovSendFrames send_start_tr pullBe
  rw [if_pos h]
  simp only [check_tr_ack_false]
  rfl

/-- Witness for C4: a well-formed ACKNOWLEDGMENT frame (header byte 1) delivered
as the very first bearer frame, with the clock pinned at 0, still yields
`AckTimeout` on a 20-byte payload. -/
theorem gprov_send_ack_ignored_witness :
    MAX_MTU_SIZE - 4 ≤ (List.replicate 20 204).length ∧
    gprov_send 5 [[1]] (fun _ => 0) (List.replicate 20 204) = .error .ackTimeout :=
  ⟨by decide, gprov_send_ack_ignored 5 [[1]] (fun _ => 0) (List.replicate 20 204) (by decide)⟩

/-- C2.  On a protocol-conformant device run ending in `PROVISIONING_COMPLETE`,
`provisioning_device` emits no `LINK_CLOSE` at all — in particular never
`LINK_CLOSE(0x00)` — and the call escapes with `TypeError`: the authentication
phase adds the integer invite value to the capabilities bytes before anything
else, the exception is caught by neither handler, and the device's confirmation,
random and `PROVISIONING_COMPLETE` transactions are left unconsumed. -/
theorem provisioning_happy_path_no_success_close :
    (provisioning_device happyParams happyFrames).closes = [] ∧
    (provisioning_device happyParams happyFrames).result = .error .typeError ∧
    (provisioning_device happyParams happyFrames).frames_left =
      [PROVISIONING_CONFIRMATION :: List.replicate 16 0,
       PROVISIONING_RANDOM :: List.replicate 16 6,
       [PROVISIONING_COMPLETE]] :=
  ⟨rfl, rfl, rfl⟩

/-- C5.  On a run whose device confirmation (sixteen 0x01 bytes) cannot equal any
recomputed `aes_cmac(confirmation_key, random_device || auth_value)` (the
constant CMAC returns sixteen zero bytes), `provisioning_device` neither emits
`LINK_CLOSE(0x02)` nor raises `ProvisioningFail` to its caller: the
authentication phase dies with `TypeError` before the mismatch check, no
`LINK_CLOSE` is emitted, and the escaping exception is `TypeError`. -/
theorem confirmation_mismatch_closes_nothing :
    (∀ key msg, (List.replicate 16 1 : List Nat) ≠ happyParams.cmac key msg) ∧
    (provisioning_device happyParams mismatchFrames).closes = [] ∧
    (provisioning_device happyParams mismatchFrames).result = .error .typeError := by
  refine ⟨?_, rfl, rfl⟩
  intro key msg
  show List.replicate 16 1 ≠ List.replicate 16 0
  decide

/-- C7.  The authentication- and data-phase messages are not opcode-prefixed:
the authentication phase raises `TypeError` before sending anything (for every
parameter set, capability bytes, start bytes, device key and transport state),
so no confirmation (0x05) or random (0x06) message is ever sent; and the data
phase, evaluated standalone, sends the 33-byte transaction
`ciphertext(25) || mic(8)` with no leading `PROVISIONING_DATA` (0x07) byte —
its first byte is the first net-key byte, 9. -/
theorem auth_and_data_messages_lack_opcodes :
    (∀ (P : ProvParams) (caps start : List Nat) (dpub : List Nat × List Nat)
       (st : ProvSt),
       authentication_prov_phase P (.int default_attention_duration) caps start dpub st
         = (.error .typeError, st)) ∧
    ((send_data_prov_phase happyParams (List.replicate 16 0) (List.replicate 16 6))
        ⟨[[PROVISIONING_COMPLETE]], []⟩).2.sent =
      [List.replicate 16 9 ++ [0, 0, 0, 0x12, 0x34, 0x56, 0x78, 0, 2]
        ++ List.replicate 8 0] ∧
    (((send_data_prov_phase happyParams (List.replicate 16 0) (List.replicate 16 6))
        ⟨[[PROVISIONING_COMPLETE]], []⟩).2.sent.getD 0 []).length = 33 :=
  ⟨fun _ _ _ _ _ => rfl, rfl, rfl⟩

/-- C9.  `ProvisioningLayer.__recv` raises `ProvisioningFail` on every frame whose
opcode byte is `PROVISIONING_FAILED` (0x09), for every expected-opcode argument
(including none at all and including 0x09 itself), before the expected-opcode
comparison; the frame is consumed and nothing else changes. -/
theorem prov_recv_failed_opcode_raises (opcode_verification : Option Nat)
    (rest : List Nat) (frames sent : List (List Nat)) :
    prov_recv opcode_verification ⟨(PROVISIONING_FAILED :: rest) :: frames, sent⟩ =
      (.error .provisioningFail, ⟨frames, sent⟩) := rfl

/-- C10 (amended).  `decode_msg_bearer_control` on a `LINK_OPEN` frame returns the
entire remaining body as the UUID, whatever its length, and never errors; an op
code outside {LINK_OPEN, LINK_ACK, LINK_CLOSE} raises; and a `LINK_CLOSE` frame
pulls one reason byte, so a `LINK_CLOSE` frame with an empty body also raises
(buffer underflow), although its op code is inside the set. -/
theorem decode_bearer_control_shapes :
    (∀ (first_byte : Nat) (body : List Nat),
       (first_byte &&& 0b11111100) >>> 2 = LINK_OPEN →
       decode_msg_bearer_control (first_byte :: body) = .ok ⟨LINK_OPEN, .bytes body⟩) ∧
    (∀ (first_byte reason : Nat) (rest : List Nat),
       (first_byte &&& 0b11111100) >>> 2 = LINK_CLOSE →
       decode_msg_bearer_control (first_byte :: reason :: rest) =
         .ok ⟨LINK_CLOSE, .int reason⟩) ∧
    (∀ first_byte : Nat,
       (first_byte &&& 0b11111100) >>> 2 = LINK_CLOSE →
       decode_msg_bearer_control [first_byte] = .error .bufferUnderflow) ∧
    (∀ (first_byte : Nat) (body : List Nat),
       (first_byte &&& 0b11111100) >>> 2 ≠ LINK_OPEN →
       (first_byte &&& 0b11111100) >>> 2 ≠ LINK_ACK →
       (first_byte &&& 0b11111100) >>> 2 ≠ LINK_CLOSE →
       decode_msg_bearer_control (first_byte :: body) = .error .bearerOpUnknown) := by
  refine ⟨?_, ?_, ?_, ?_⟩
  · intro fb body h
    simp [decode_msg_bearer_control, h]
  · intro fb reason rest h
    simp [decode_msg_bearer_control, h]
    decide
  · intro fb h
    simp [decode_msg_bearer_control, h]
    decide
  · intro fb body h0 h1 h2
    simp [decode_msg_bearer_control, h0, h1, h2]

/-- Counterexample for C10 as stated: the frame `[0x0b]` carries the in-set op
code `LINK_CLOSE`, yet decoding raises (buffer underflow pulling the absent
reason byte) — so it is not the case that only an op code outside
{LINK_OPEN, LINK_ACK, LINK_CLOSE} raises. -/
theorem decode_bearer_control_close_empty_raises :
    decode_msg_bearer_control [0x0b] = .error .bufferUnderflow ∧
    (0x0b &&& 0b11111100) >>> 2 = LINK_CLOSE :=
  ⟨rfl, rfl⟩

/-- Witness for C10: the amended theorem applied at a `LINK_OPEN` frame with a
3-byte (shorter-than-16) body, and at the unknown op code 3. -/
theorem decode_bearer_control_shapes_witness :
    decode_msg_bearer_control (0x03 :: [1, 2, 3]) = .ok ⟨LINK_OPEN, .bytes [1, 2, 3]⟩ ∧
    decode_msg_bearer_control (0x0f :: [1]) = .error .bearerOpUnknown :=
  ⟨decode_bearer_control_shapes.1 0x03 [1, 2, 3] (by decide),
   decode_bearer_control_shapes.2.2.2 0x0f [1] (by decide) (by decide) (by decide)⟩
